import Mathlib

/-!
# Image-builder client (pkg/imagebuilder/client.go)

A shallow embedding of the client that turns a build record into a compose
request for the remote image-builder service, posts it, and later polls the
job and projects the remote status back onto the record.

Conventions of the embedding:

* Go pointers that may be nil are `Option`; a nil slice and an empty slice
  are both `[]`.
* A method that mutates the caller's record through its pointer and returns
  `(*models.Image, error)` becomes a function to `Call`: the record as the
  call leaves it, and how the call ended (pointer returned, error returned,
  or a run-time nil dereference).
* The HTTP round trip, `ioutil.ReadAll` and `json.Unmarshal` are outside the
  repository; they are the fields of `Env`.
* Package models is declared outside client.go. Its records are modelled
  with the fields client.go touches, the two flavor records held by value;
  its status constants are modelled from the specification, and its two
  image-type constants are parameters of the request builders.
-/

namespace imagebuilder

/-! ## Package models (declared outside client.go) -/

namespace models

/-- Modelled from the spec: the flavor record for the raw OS commit,
`models.Commit`, with the fields client.go reads and writes. -/
structure Commit where
  Arch : String
  Packages : List String
  OSTreeRef : String
  OSTreeParentCommit : String
  ComposeJobID : String
  Status : String
  ImageBuildTarURL : String
deriving DecidableEq, Repr

/-- Modelled from the spec: the flavor record for the bootable installer,
`models.Installer`, with the fields client.go reads and writes. -/
structure Installer where
  ComposeJobID : String
  Status : String
  ImageBuildISOURL : String
deriving DecidableEq, Repr

/-- Modelled from the spec: the build record `models.Image`, owned by the
caller: target distribution, aggregate status, and one record per flavor. -/
structure Image where
  Distribution : String
  Status : String
  Commit : Commit
  Installer : Installer
deriving DecidableEq, Repr

/-- Modelled from the spec: `models.UpdateRecord`, exposing the owning
account identifier and the numeric (unsigned) id. -/
structure UpdateRecord where
  Account : String
  ID : Nat
deriving DecidableEq, Repr

/-- Modelled from the spec: internal status "building"
(`models.ImageStatusBuilding`). -/
def ImageStatusBuilding : String := "building"

/-- Modelled from the spec: internal status "success"
(`models.ImageStatusSuccess`). -/
def ImageStatusSuccess : String := "success"

/-- Modelled from the spec: internal status "error"
(`models.ImageStatusError`). -/
def ImageStatusError : String := "error"

/-- Modelled from the spec: `(*Commit).GetPackagesList`, a pointer to a copy
of the record's package list. -/
def Commit.GetPackagesList (c : Commit) : Option (List String) :=
  some c.Packages

end models

/-! ## Wire types -/

/-- Go `OSTree`. -/
structure OSTree where
  URL : String
  Ref : String
deriving DecidableEq, Repr

/-- Go `Customizations`; `Packages` is a `*[]string`. -/
structure Customizations where
  Packages : Option (List String)
deriving DecidableEq, Repr

/-- The dynamic values client.go stores in `UploadRequest.Options`
(an `interface{}`): the nil interface, or a `map[string]string`. -/
inductive UploadOptions where
  | nilValue
  | stringMap (entries : List (String × String))
deriving DecidableEq, Repr

/-- Go `UploadRequest`; `Type_` is the field `Type`. -/
structure UploadRequest where
  Options : UploadOptions
  Type_ : String
deriving DecidableEq, Repr

/-- Go `ImageRequest`; `Ostree` and `UploadRequest` are pointers. -/
structure ImageRequest where
  Architecture : String
  ImageType : String
  Ostree : Option OSTree
  UploadRequest : Option UploadRequest
deriving DecidableEq, Repr

/-- Go `ComposeRequest`. -/
structure ComposeRequest where
  Customizations : Option Customizations
  Distribution : String
  ImageRequests : List ImageRequest
deriving DecidableEq, Repr

/-- Go `S3UploadStatus`. -/
structure S3UploadStatus where
  URL : String
deriving DecidableEq, Repr

/-- Go `UploadStatus`; `Type_` is the field `Type`, of the string type
`UploadTypes`. -/
structure UploadStatus where
  Options : S3UploadStatus
  Status : String
  Type_ : String
deriving DecidableEq, Repr

/-- Go `ImageStatus`; `Status` is the string type `imageStatusValue`,
`UploadStatus` a pointer left nil when the key is absent. -/
structure ImageStatus where
  Status : String
  UploadStatus : Option UploadStatus
deriving DecidableEq, Repr

/-- Go `ComposeStatus`. -/
structure ComposeStatus where
  ImageStatus : ImageStatus
deriving DecidableEq, Repr

/-- Go `ComposeResult`. -/
structure ComposeResult where
  Id : String
deriving DecidableEq, Repr

def imageStatusBulding : String := "building"
def imageStatusFailure : String := "failure"
def imageStatusPending : String := "pending"
def imageStatusRegistering : String := "registering"
def imageStatusSuccess : String := "success"
def imageStatusUploading : String := "uploading"

/-! ## The world outside the repository -/

/-- What `ioutil.ReadAll(res.Body)` yields: the bytes read, and the read
error if there was one. -/
structure ReadAll where
  data : String
  err : Option String
deriving DecidableEq, Repr

/-- The part of `*http.Response` client.go looks at. -/
structure Response where
  StatusCode : Nat
  Body : ReadAll
deriving DecidableEq, Repr

/-- The `*http.Request` client.go assembles. `payload` is the value that
`json.NewEncoder` wrote into the request body (nil body for a GET); `header`
lists the `Header.Add` calls in order. -/
structure Request where
  method : String
  url : String
  header : List (String × String)
  payload : Option ComposeRequest
deriving DecidableEq, Repr

/-- The errors the client returns. -/
inductive ClientError where
  | transport (msg : String)
  | unexpectedStatus (statusCode : Nat) (body : String)
  | read (msg : String)
  | decode (msg : String)
deriving DecidableEq, Repr

/-- The collaborators of the client: the configured base URL
(`config.Get().ImageBuilderConfig.URL`), the HTTP round trip
(`client.Do`), and `json.Unmarshal` into a `**ComposeResult` and a
`**ComposeStatus`. Unmarshal answers an error, or the pointer it leaves
behind: `none` when the body is the JSON literal null. -/
structure Env where
  baseURL : String
  roundTrip : Request → Except String Response
  unmarshalComposeResult : String → Except String (Option ComposeResult)
  unmarshalComposeStatus : String → Except String (Option ComposeStatus)

/-- How a call on a record ended. -/
inductive Outcome where
  | returned
  | failed (e : ClientError)
  | nilDereference
deriving DecidableEq, Repr

/-- A finished call: the caller's record as the call leaves it, and the
outcome. With `returned` the pointer handed back is the record itself. -/
structure Call where
  image : models.Image
  outcome : Outcome
deriving DecidableEq, Repr

/-! ## fmt.Sprintf, for the verbs client.go uses -/

/-- An operand of `fmt.Sprintf`: a string (for `%s`) or an unsigned integer
(for `%d`). -/
inductive Arg where
  | str (s : String)
  | uint (n : Nat)
deriving DecidableEq, Repr

/-- Expansion of a format over its operands: `%s` prints a string operand,
`%d` an unsigned operand in decimal, every other character is copied. -/
def sprintfChars : List Char → List Arg → List Char
  | '%' :: 's' :: rest, Arg.str s :: args => s.toList ++ sprintfChars rest args
  | '%' :: 'd' :: rest, Arg.uint n :: args => (Nat.repr n).toList ++ sprintfChars rest args
  | c :: rest, args => c :: sprintfChars rest args
  | [], _ => []

def Sprintf (format : String) (args : List Arg) : String :=
  String.mk (sprintfChars format.toList args)

/-! ## client.go -/

/-- The headers of an outgoing request: the caller's, then the content
type. -/
def requestHeader (headers : List (String × String)) : List (String × String) :=
  headers ++ [("Content-Type", "application/json")]

/-- The request `compose` hands to `client.Do` (lines 94-103). -/
def composeHttpRequest (env : Env) (composeReq : ComposeRequest)
    (headers : List (String × String)) : Request :=
  let url := Sprintf "%s/v1/compose" [Arg.str env.baseURL]
  { method := "POST", url := url, header := requestHeader headers, payload := some composeReq }

def compose (env : Env) (composeReq : ComposeRequest) (headers : List (String × String)) :
    Except ClientError (Option ComposeResult) :=
  let req := composeHttpRequest env composeReq headers
  match env.roundTrip req with
  | Except.error err => Except.error (ClientError.transport err)
  | Except.ok res =>
    if res.StatusCode ≠ 201 then
      Except.error (ClientError.unexpectedStatus res.StatusCode res.Body.data)
    else
      match res.Body.err with
      | some err => Except.error (ClientError.read err)
      | none =>
        match env.unmarshalComposeResult res.Body.data with
        | Except.error err => Except.error (ClientError.decode err)
        | Except.ok cr => Except.ok cr

/-- The statement `if Ostree == nil then Ostree = &OSTree{}` on an image
request. -/
def ImageRequest.ensureOstree (r : ImageRequest) : ImageRequest :=
  match r.Ostree with
  | none => { r with Ostree := some { URL := "", Ref := "" } }
  | some _ => r

/-- The assignment `Ostree.Ref = ref`; the pointer is non-nil where
client.go performs it. -/
def ImageRequest.setOstreeRef (r : ImageRequest) (ref : String) : ImageRequest :=
  { r with Ostree := r.Ostree.map fun o => { o with Ref := ref } }

/-- The assignment `Ostree.URL = url`; the pointer is non-nil where
client.go performs it. -/
def ImageRequest.setOstreeURL (r : ImageRequest) (url : String) : ImageRequest :=
  { r with Ostree := r.Ostree.map fun o => { o with URL := url } }

/-- An update of `req.ImageRequests[0]`. -/
def ComposeRequest.modifyFirst (req : ComposeRequest) (f : ImageRequest → ImageRequest) :
    ComposeRequest :=
  match req.ImageRequests with
  | [] => req
  | r :: rs => { req with ImageRequests := f r :: rs }

section

variable (ImageTypeCommit ImageTypeInstaller : String)

/-- The request `ComposeCommit` has built when it calls `compose`
(lines 130-157). `ImageTypeCommit` is the constant of package models. -/
def commitComposeRequest (image : models.Image) : ComposeRequest :=
  let req : ComposeRequest :=
    { Customizations := some { Packages := image.Commit.GetPackagesList }
      Distribution := image.Distribution
      ImageRequests :=
        [{ Architecture := image.Commit.Arch
           ImageType := ImageTypeCommit
           Ostree := none
           UploadRequest := some { Options := UploadOptions.stringMap [], Type_ := "aws.s3" } }] }
  let req :=
    if image.Commit.OSTreeRef ≠ "" then
      req.modifyFirst fun r => r.ensureOstree.setOstreeRef image.Commit.OSTreeRef
    else req
  let req :=
    if image.Commit.OSTreeRef ≠ "" then
      req.modifyFirst fun r => r.ensureOstree.setOstreeURL image.Commit.OSTreeParentCommit
    else req
  req

def ComposeCommit (env : Env) (image : models.Image) (headers : List (String × String)) : Call :=
  let req := commitComposeRequest ImageTypeCommit image
  match compose env req headers with
  | Except.error err => { image := image, outcome := Outcome.failed err }
  | Except.ok none => { image := image, outcome := Outcome.nilDereference }
  | Except.ok (some cr) =>
    let image := { image with Commit := { image.Commit with ComposeJobID := cr.Id } }
    let image := { image with Commit := { image.Commit with Status := models.ImageStatusBuilding } }
    let image := { image with Status := models.ImageStatusBuilding }
    { image := image, outcome := Outcome.returned }

/-- The request `ComposeInstaller` has built when it calls `compose`
(lines 170-190). `ImageTypeInstaller` is the constant of package models. -/
def installerComposeRequest (updateRecord : models.UpdateRecord) (image : models.Image) :
    ComposeRequest :=
  let pkgs : List String := []
  { Customizations := some { Packages := some pkgs }
    Distribution := image.Distribution
    ImageRequests :=
      [{ Architecture := image.Commit.Arch
         ImageType := ImageTypeInstaller
         Ostree := some
           { Ref := image.Commit.OSTreeRef
             URL := Sprintf
               "http://s3httpproxy-env.eba-zswvuamp.us-east-2.elasticbeanstalk.com/%s/%d/repo"
               [Arg.str updateRecord.Account, Arg.uint updateRecord.ID] }
         UploadRequest := some { Options := UploadOptions.stringMap [], Type_ := "aws.s3" } }] }

def ComposeInstaller (env : Env) (updateRecord : models.UpdateRecord) (image : models.Image)
    (headers : List (String × String)) : Call :=
  let req := installerComposeRequest ImageTypeInstaller updateRecord image
  match compose env req headers with
  | Except.error err => { image := image, outcome := Outcome.failed err }
  | Except.ok none => { image := image, outcome := Outcome.nilDereference }
  | Except.ok (some cr) =>
    let image := { image with Installer := { image.Installer with ComposeJobID := cr.Id } }
    let image :=
      { image with Installer := { image.Installer with Status := models.ImageStatusBuilding } }
    let image := { image with Status := models.ImageStatusBuilding }
    { image := image, outcome := Outcome.returned }

end

/-- The request `getComposeStatus` hands to `client.Do` (lines 203-209). -/
def statusHttpRequest (env : Env) (jobId : String) (headers : List (String × String)) : Request :=
  let url := Sprintf "%s/v1/composes/%s" [Arg.str env.baseURL, Arg.str jobId]
  { method := "GET", url := url, header := requestHeader headers, payload := none }

def getComposeStatus (env : Env) (jobId : String) (headers : List (String × String)) :
    Except ClientError (Option ComposeStatus) :=
  let req := statusHttpRequest env jobId headers
  match env.roundTrip req with
  | Except.error err => Except.error (ClientError.transport err)
  | Except.ok res =>
    if res.StatusCode ≠ 200 then
      Except.error (ClientError.unexpectedStatus res.StatusCode res.Body.data)
    else
      match res.Body.err with
      | some err => Except.error (ClientError.read err)
      | none =>
        match env.unmarshalComposeStatus res.Body.data with
        | Except.error err => Except.error (ClientError.decode err)
        | Except.ok cs => Except.ok cs

def GetCommitStatus (env : Env) (image : models.Image) (headers : List (String × String)) : Call :=
  match getComposeStatus env image.Commit.ComposeJobID headers with
  | Except.error err => { image := image, outcome := Outcome.failed err }
  | Except.ok none => { image := image, outcome := Outcome.nilDereference }
  | Except.ok (some cs) =>
    if cs.ImageStatus.Status = imageStatusSuccess then
      let image := { image with Status := models.ImageStatusSuccess }
      let image :=
        { image with Commit := { image.Commit with Status := models.ImageStatusSuccess } }
      match cs.ImageStatus.UploadStatus with
      | none => { image := image, outcome := Outcome.nilDereference }
      | some us =>
        let image :=
          { image with Commit := { image.Commit with ImageBuildTarURL := us.Options.URL } }
        { image := image, outcome := Outcome.returned }
    else if cs.ImageStatus.Status = imageStatusFailure then
      let image := { image with Commit := { image.Commit with Status := models.ImageStatusError } }
      let image := { image with Status := models.ImageStatusError }
      { image := image, outcome := Outcome.returned }
    else
      { image := image, outcome := Outcome.returned }

def GetInstallerStatus (env : Env) (image : models.Image) (headers : List (String × String)) :
    Call :=
  match getComposeStatus env image.Installer.ComposeJobID headers with
  | Except.error err => { image := image, outcome := Outcome.failed err }
  | Except.ok none => { image := image, outcome := Outcome.nilDereference }
  | Except.ok (some cs) =>
    if cs.ImageStatus.Status = imageStatusSuccess then
      let image := { image with Status := models.ImageStatusSuccess }
      let image :=
        { image with Installer := { image.Installer with Status := models.ImageStatusSuccess } }
      match cs.ImageStatus.UploadStatus with
      | none => { image := image, outcome := Outcome.nilDereference }
      | some us =>
        let image :=
          { image with Installer := { image.Installer with ImageBuildISOURL := us.Options.URL } }
        { image := image, outcome := Outcome.returned }
    else if cs.ImageStatus.Status = imageStatusFailure then
      let image :=
        { image with Installer := { image.Installer with Status := models.ImageStatusError } }
      let image := { image with Status := models.ImageStatusError }
      { image := image, outcome := Outcome.returned }
    else
      { image := image, outcome := Outcome.returned }

/-! ## Names used in the statements -/

/-- The fixed proxy base of the installer's OS-tree URL: the format of
line 183 up to its first verb, without the slash before it. -/
def proxyBase : String := "http://s3httpproxy-env.eba-zswvuamp.us-east-2.elasticbeanstalk.com"

/-! ## Concrete inputs -/

/-- A build record that has not been submitted yet. -/
def freshImage : models.Image :=
  { Distribution := "rhel-8"
    Status := "created"
    Commit :=
      { Arch := "x86_64"
        Packages := ["vim", "tmux"]
        OSTreeRef := "rhel/8/x86_64/edge"
        OSTreeParentCommit := "https://repo.example/parent"
        ComposeJobID := ""
        Status := "created"
        ImageBuildTarURL := "" }
    Installer := { ComposeJobID := "", Status := "created", ImageBuildISOURL := "" } }

/-- A build record with a parent commit and no OS-tree ref. -/
def parentOnlyImage : models.Image :=
  { freshImage with
    Commit := { freshImage.Commit with OSTreeRef := "" } }

/-- A build record whose two jobs have been submitted. -/
def submittedImage : models.Image :=
  { freshImage with
    Status := "building"
    Commit := { freshImage.Commit with ComposeJobID := "job-c", Status := "building" }
    Installer := { freshImage.Installer with ComposeJobID := "job-i", Status := "building" } }

def sampleUpdateRecord : models.UpdateRecord :=
  { Account := "0000001", ID := 42 }

/-- A service whose every answer has status `code` and body `body`; the
body decodes to `cr` as a compose result and to `cs` as a compose status. -/
def fixedService (code : Nat) (body : String) (cr : Option ComposeResult)
    (cs : Option ComposeStatus) : Env :=
  { baseURL := "https://builder.example/api"
    roundTrip := fun _ => Except.ok { StatusCode := code, Body := { data := body, err := none } }
    unmarshalComposeResult := fun text =>
      if text = body then
        match cr with
        | some v => Except.ok (some v)
        | none => Except.error "json: cannot unmarshal into ComposeResult"
      else Except.error "unexpected end of JSON input"
    unmarshalComposeStatus := fun text =>
      if text = body then
        match cs with
        | some v => Except.ok (some v)
        | none => Except.error "json: cannot unmarshal into ComposeStatus"
      else Except.error "unexpected end of JSON input" }

/-- HTTP 201 with body `\x7b"id":"abc123"\x7d`. -/
def createdService : Env :=
  fixedService 201 "\x7b\"id\":\"abc123\"\x7d" (some { Id := "abc123" }) none

/-- HTTP 500 with a diagnostic body. -/
def brokenService : Env :=
  fixedService 500 "internal server error" none none

/-- HTTP 200 reporting the status `status` and the upload result
`upload`. -/
def pollService (status : String) (upload : Option UploadStatus) : Env :=
  fixedService 200 "image_status" none
    (some { ImageStatus := { Status := status, UploadStatus := upload } })

def sampleUpload : UploadStatus :=
  { Options := { URL := "https://x/y" }, Status := "success", Type_ := "aws.s3" }

/-! ## Request builder -/

theorem sprintfChars_proxy (account : String) (id : Nat) :
    Sprintf "http://s3httpproxy-env.eba-zswvuamp.us-east-2.elasticbeanstalk.com/%s/%d/repo"
        [Arg.str account, Arg.uint id]
      = proxyBase ++ "/" ++ account ++ "/" ++ toString id ++ "/repo" := by
  apply String.ext
  simp [Sprintf, sprintfChars, proxyBase]
  rfl

/-- C1: the request ComposeCommit builds has one image request, whose
OS-tree block is absent when the record's OS-tree ref is empty and otherwise
carries the record's ref as its ref and the record's parent-commit value as
its URL. -/
theorem commitComposeRequest_ostree (ImageTypeCommit : String) (image : models.Image) :
    (commitComposeRequest ImageTypeCommit image).ImageRequests.map ImageRequest.Ostree =
      [if image.Commit.OSTreeRef = "" then none
       else some { Ref := image.Commit.OSTreeRef, URL := image.Commit.OSTreeParentCommit }] := by
  by_cases h : image.Commit.OSTreeRef = "" <;>
    simp [commitComposeRequest, ComposeRequest.modifyFirst, ImageRequest.ensureOstree,
      ImageRequest.setOstreeRef, ImageRequest.setOstreeURL, h]

/-- C2: for a record with a parent-commit value and an empty OS-tree ref,
the request ComposeCommit builds has no OS-tree block, so the parent-commit
value reaches no URL. -/
theorem commitComposeRequest_parentOnly :
    parentOnlyImage.Commit.OSTreeParentCommit = "https://repo.example/parent" ∧
    parentOnlyImage.Commit.OSTreeRef = "" ∧
    (commitComposeRequest "rhel-edge-commit" parentOnlyImage).ImageRequests.map
      ImageRequest.Ostree = [none] := by
  decide

/-- C3: the request ComposeInstaller builds has an empty package list and one
image request; its OS-tree block is present, with the record's commit OS-tree
ref as ref and, as URL, the proxy base, "/", the account, "/", the update
record's id in decimal, and "/repo". -/
theorem installerComposeRequest_ostree (ImageTypeInstaller : String)
    (updateRecord : models.UpdateRecord) (image : models.Image) :
    (installerComposeRequest ImageTypeInstaller updateRecord image).Customizations =
      some { Packages := some [] } ∧
    (installerComposeRequest ImageTypeInstaller updateRecord image).ImageRequests.map
      ImageRequest.Ostree =
      [some { Ref := image.Commit.OSTreeRef
              URL := proxyBase ++ "/" ++ updateRecord.Account ++ "/" ++
                toString updateRecord.ID ++ "/repo" }] := by
  simp [installerComposeRequest, sprintfChars_proxy]

/-- C10: the request of either flavor has exactly one image request, and its
upload destination is present, of type "aws.s3", with an empty option map. -/
theorem composeRequest_upload (ImageTypeCommit ImageTypeInstaller : String)
    (updateRecord : models.UpdateRecord) (image : models.Image) :
    (commitComposeRequest ImageTypeCommit image).ImageRequests.map ImageRequest.UploadRequest =
      [some { Options := UploadOptions.stringMap [], Type_ := "aws.s3" }] ∧
    (installerComposeRequest ImageTypeInstaller updateRecord image).ImageRequests.map
      ImageRequest.UploadRequest =
      [some { Options := UploadOptions.stringMap [], Type_ := "aws.s3" }] := by
  constructor
  · by_cases h : image.Commit.OSTreeRef = "" <;>
      simp [commitComposeRequest, ComposeRequest.modifyFirst, ImageRequest.ensureOstree,
        ImageRequest.setOstreeRef, ImageRequest.setOstreeURL, h]
  · simp [installerComposeRequest]

/-! ## Submission -/

/-- C5: when the service answers the submission with HTTP 201 and a body
decoding to the id `J`, ComposeCommit returns the record with the commit job
identifier `J`, commit status "building" and aggregate status "building", and
ComposeInstaller returns it with the installer job identifier `J`, installer
status "building" and aggregate status "building"; no other field changes. -/
theorem compose_created (ImageTypeCommit ImageTypeInstaller : String) (env : Env)
    (updateRecord : models.UpdateRecord) (image : models.Image)
    (headers : List (String × String)) (res : Response) (J : String) :
    (env.roundTrip (composeHttpRequest env (commitComposeRequest ImageTypeCommit image) headers)
        = Except.ok res →
      res.StatusCode = 201 → res.Body.err = none →
      env.unmarshalComposeResult res.Body.data = Except.ok (some { Id := J }) →
      ComposeCommit ImageTypeCommit env image headers =
        { image :=
            { image with
              Status := "building"
              Commit := { image.Commit with ComposeJobID := J, Status := "building" } }
          outcome := Outcome.returned }) ∧
    (env.roundTrip
        (composeHttpRequest env
          (installerComposeRequest ImageTypeInstaller updateRecord image) headers)
        = Except.ok res →
      res.StatusCode = 201 → res.Body.err = none →
      env.unmarshalComposeResult res.Body.data = Except.ok (some { Id := J }) →
      ComposeInstaller ImageTypeInstaller env updateRecord image headers =
        { image :=
            { image with
              Status := "building"
              Installer := { image.Installer with ComposeJobID := J, Status := "building" } }
          outcome := Outcome.returned }) := by
  constructor
  · intro hDo hCode hRead hJson
    simp [ComposeCommit, compose, hDo, hCode, hRead, hJson, models.ImageStatusBuilding]
  · intro hDo hCode hRead hJson
    simp [ComposeInstaller, compose, hDo, hCode, hRead, hJson, models.ImageStatusBuilding]

theorem compose_created_witness :
    ComposeCommit "rhel-edge-commit" createdService freshImage [("x-rh-identity", "abc")] =
      { image :=
          { freshImage with
            Status := "building"
            Commit := { freshImage.Commit with ComposeJobID := "abc123", Status := "building" } }
        outcome := Outcome.returned } ∧
    ComposeInstaller "rhel-edge-installer" createdService sampleUpdateRecord freshImage
        [("x-rh-identity", "abc")] =
      { image :=
          { freshImage with
            Status := "building"
            Installer :=
              { freshImage.Installer with ComposeJobID := "abc123", Status := "building" } }
        outcome := Outcome.returned } :=
  ⟨(compose_created "rhel-edge-commit" "rhel-edge-installer" createdService sampleUpdateRecord
      freshImage [("x-rh-identity", "abc")]
      { StatusCode := 201, Body := { data := "\x7b\"id\":\"abc123\"\x7d", err := none } }
      "abc123").1 rfl rfl rfl rfl,
   (compose_created "rhel-edge-commit" "rhel-edge-installer" createdService sampleUpdateRecord
      freshImage [("x-rh-identity", "abc")]
      { StatusCode := 201, Body := { data := "\x7b\"id\":\"abc123\"\x7d", err := none } }
      "abc123").2 rfl rfl rfl rfl⟩

/-- C6: when the service answers the submission with an HTTP status other
than 201, ComposeCommit and ComposeInstaller return an error, which carries
the status code and the response body, and the build record is left as it
was. -/
theorem compose_not_created (ImageTypeCommit ImageTypeInstaller : String) (env : Env)
    (updateRecord : models.UpdateRecord) (image : models.Image)
    (headers : List (String × String)) (res : Response) :
    (env.roundTrip (composeHttpRequest env (commitComposeRequest ImageTypeCommit image) headers)
        = Except.ok res →
      res.StatusCode ≠ 201 →
      ComposeCommit ImageTypeCommit env image headers =
        { image := image
          outcome :=
            Outcome.failed (ClientError.unexpectedStatus res.StatusCode res.Body.data) }) ∧
    (env.roundTrip
        (composeHttpRequest env
          (installerComposeRequest ImageTypeInstaller updateRecord image) headers)
        = Except.ok res →
      res.StatusCode ≠ 201 →
      ComposeInstaller ImageTypeInstaller env updateRecord image headers =
        { image := image
          outcome :=
            Outcome.failed (ClientError.unexpectedStatus res.StatusCode res.Body.data) }) := by
  constructor
  · intro hDo hCode
    simp [ComposeCommit, compose, hDo, hCode]
  · intro hDo hCode
    simp [ComposeInstaller, compose, hDo, hCode]

theorem compose_not_created_witness :
    ComposeCommit "rhel-edge-commit" brokenService freshImage [] =
      { image := freshImage
        outcome := Outcome.failed (ClientError.unexpectedStatus 500 "internal server error") } ∧
    ComposeInstaller "rhel-edge-installer" brokenService sampleUpdateRecord freshImage [] =
      { image := freshImage
        outcome := Outcome.failed (ClientError.unexpectedStatus 500 "internal server error") } :=
  ⟨(compose_not_created "rhel-edge-commit" "rhel-edge-installer" brokenService sampleUpdateRecord
      freshImage []
      { StatusCode := 500, Body := { data := "internal server error", err := none } }).1
      rfl (by decide),
   (compose_not_created "rhel-edge-commit" "rhel-edge-installer" brokenService sampleUpdateRecord
      freshImage []
      { StatusCode := 500, Body := { data := "internal server error", err := none } }).2
      rfl (by decide)⟩

/-! ## Polling -/

/-- C7: when polling gets HTTP 200 with remote status "success" and an upload
result whose URL is `U`, GetCommitStatus returns the record with aggregate
and commit status "success" and commit artifact URL `U`, and
GetInstallerStatus returns it with aggregate and installer status "success"
and installer artifact URL `U`; no other field changes. -/
theorem getStatus_success (env : Env) (image : models.Image) (headers : List (String × String))
    (res : Response) (cs : ComposeStatus) (us : UploadStatus) (U : String) :
    (env.roundTrip (statusHttpRequest env image.Commit.ComposeJobID headers) = Except.ok res →
      res.StatusCode = 200 → res.Body.err = none →
      env.unmarshalComposeStatus res.Body.data = Except.ok (some cs) →
      cs.ImageStatus.Status = "success" → cs.ImageStatus.UploadStatus = some us →
      us.Options.URL = U →
      GetCommitStatus env image headers =
        { image :=
            { image with
              Status := "success"
              Commit := { image.Commit with Status := "success", ImageBuildTarURL := U } }
          outcome := Outcome.returned }) ∧
    (env.roundTrip (statusHttpRequest env image.Installer.ComposeJobID headers) = Except.ok res →
      res.StatusCode = 200 → res.Body.err = none →
      env.unmarshalComposeStatus res.Body.data = Except.ok (some cs) →
      cs.ImageStatus.Status = "success" → cs.ImageStatus.UploadStatus = some us →
      us.Options.URL = U →
      GetInstallerStatus env image headers =
        { image :=
            { image with
              Status := "success"
              Installer := { image.Installer with Status := "success", ImageBuildISOURL := U } }
          outcome := Outcome.returned }) := by
  constructor
  · intro hDo hCode hRead hJson hStatus hUpload hURL
    simp [GetCommitStatus, getComposeStatus, hDo, hCode, hRead, hJson, hStatus, hUpload, hURL,
      imageStatusSuccess, models.ImageStatusSuccess]
  · intro hDo hCode hRead hJson hStatus hUpload hURL
    simp [GetInstallerStatus, getComposeStatus, hDo, hCode, hRead, hJson, hStatus, hUpload, hURL,
      imageStatusSuccess, models.ImageStatusSuccess]

theorem getStatus_success_witness :
    GetCommitStatus (pollService "success" (some sampleUpload)) submittedImage [] =
      { image :=
          { submittedImage with
            Status := "success"
            Commit :=
              { submittedImage.Commit with
                Status := "success", ImageBuildTarURL := "https://x/y" } }
        outcome := Outcome.returned } ∧
    GetInstallerStatus (pollService "success" (some sampleUpload)) submittedImage [] =
      { image :=
          { submittedImage with
            Status := "success"
            Installer :=
              { submittedImage.Installer with
                Status := "success", ImageBuildISOURL := "https://x/y" } }
        outcome := Outcome.returned } :=
  ⟨(getStatus_success (pollService "success" (some sampleUpload)) submittedImage []
      { StatusCode := 200, Body := { data := "image_status", err := none } }
      { ImageStatus := { Status := "success", UploadStatus := some sampleUpload } }
      sampleUpload "https://x/y").1 rfl rfl rfl rfl rfl rfl rfl,
   (getStatus_success (pollService "success" (some sampleUpload)) submittedImage []
      { StatusCode := 200, Body := { data := "image_status", err := none } }
      { ImageStatus := { Status := "success", UploadStatus := some sampleUpload } }
      sampleUpload "https://x/y").2 rfl rfl rfl rfl rfl rfl rfl⟩

/-- C8: when polling gets HTTP 200 with remote status "failure",
GetCommitStatus returns the record with commit and aggregate status "error",
GetInstallerStatus returns it with installer and aggregate status "error",
and every other field, the flavor's artifact URL among them, is as it was. -/
theorem getStatus_failure (env : Env) (image : models.Image) (headers : List (String × String))
    (res : Response) (cs : ComposeStatus) :
    (env.roundTrip (statusHttpRequest env image.Commit.ComposeJobID headers) = Except.ok res →
      res.StatusCode = 200 → res.Body.err = none →
      env.unmarshalComposeStatus res.Body.data = Except.ok (some cs) →
      cs.ImageStatus.Status = "failure" →
      GetCommitStatus env image headers =
          { image :=
              { image with Status := "error", Commit := { image.Commit with Status := "error" } }
            outcome := Outcome.returned } ∧
        (GetCommitStatus env image headers).image.Commit.ImageBuildTarURL =
          image.Commit.ImageBuildTarURL) ∧
    (env.roundTrip (statusHttpRequest env image.Installer.ComposeJobID headers) = Except.ok res →
      res.StatusCode = 200 → res.Body.err = none →
      env.unmarshalComposeStatus res.Body.data = Except.ok (some cs) →
      cs.ImageStatus.Status = "failure" →
      GetInstallerStatus env image headers =
          { image :=
              { image with
                Status := "error", Installer := { image.Installer with Status := "error" } }
            outcome := Outcome.returned } ∧
        (GetInstallerStatus env image headers).image.Installer.ImageBuildISOURL =
          image.Installer.ImageBuildISOURL) := by
  constructor
  · intro hDo hCode hRead hJson hStatus
    simp [GetCommitStatus, getComposeStatus, hDo, hCode, hRead, hJson, hStatus,
      imageStatusSuccess, imageStatusFailure, models.ImageStatusError]
  · intro hDo hCode hRead hJson hStatus
    simp [GetInstallerStatus, getComposeStatus, hDo, hCode, hRead, hJson, hStatus,
      imageStatusSuccess, imageStatusFailure, models.ImageStatusError]

theorem getStatus_failure_witness :
    (GetCommitStatus (pollService "failure" none) submittedImage [] =
        { image :=
            { submittedImage with
              Status := "error", Commit := { submittedImage.Commit with Status := "error" } }
          outcome := Outcome.returned } ∧
      (GetCommitStatus (pollService "failure" none)
          submittedImage []).image.Commit.ImageBuildTarURL = "") ∧
    (GetInstallerStatus (pollService "failure" none) submittedImage [] =
        { image :=
            { submittedImage with
              Status := "error"
              Installer := { submittedImage.Installer with Status := "error" } }
          outcome := Outcome.returned } ∧
      (GetInstallerStatus (pollService "failure" none)
          submittedImage []).image.Installer.ImageBuildISOURL = "") :=
  ⟨(getStatus_failure (pollService "failure" none) submittedImage []
      { StatusCode := 200, Body := { data := "image_status", err := none } }
      { ImageStatus := { Status := "failure", UploadStatus := none } }).1 rfl rfl rfl rfl rfl,
   (getStatus_failure (pollService "failure" none) submittedImage []
      { StatusCode := 200, Body := { data := "image_status", err := none } }
      { ImageStatus := { Status := "failure", UploadStatus := none } }).2 rfl rfl rfl rfl rfl⟩

/-- C9: when polling gets HTTP 200 with a remote status other than "success"
and "failure", GetCommitStatus and GetInstallerStatus return the record with
every field as it was, and so does polling the returned record again. -/
theorem getStatus_pending (env : Env) (image : models.Image) (headers : List (String × String))
    (res : Response) (cs : ComposeStatus) :
    (env.roundTrip (statusHttpRequest env image.Commit.ComposeJobID headers) = Except.ok res →
      res.StatusCode = 200 → res.Body.err = none →
      env.unmarshalComposeStatus res.Body.data = Except.ok (some cs) →
      cs.ImageStatus.Status ≠ "success" → cs.ImageStatus.Status ≠ "failure" →
      GetCommitStatus env image headers = { image := image, outcome := Outcome.returned } ∧
        GetCommitStatus env (GetCommitStatus env image headers).image headers =
          { image := image, outcome := Outcome.returned }) ∧
    (env.roundTrip (statusHttpRequest env image.Installer.ComposeJobID headers) = Except.ok res →
      res.StatusCode = 200 → res.Body.err = none →
      env.unmarshalComposeStatus res.Body.data = Except.ok (some cs) →
      cs.ImageStatus.Status ≠ "success" → cs.ImageStatus.Status ≠ "failure" →
      GetInstallerStatus env image headers = { image := image, outcome := Outcome.returned } ∧
        GetInstallerStatus env (GetInstallerStatus env image headers).image headers =
          { image := image, outcome := Outcome.returned }) := by
  constructor
  · intro hDo hCode hRead hJson hSuccess hFailure
    have hOnce : GetCommitStatus env image headers =
        { image := image, outcome := Outcome.returned } := by
      simp [GetCommitStatus, getComposeStatus, hDo, hCode, hRead, hJson, hSuccess, hFailure,
        imageStatusSuccess, imageStatusFailure]
    exact ⟨hOnce, by rw [hOnce]; exact hOnce⟩
  · intro hDo hCode hRead hJson hSuccess hFailure
    have hOnce : GetInstallerStatus env image headers =
        { image := image, outcome := Outcome.returned } := by
      simp [GetInstallerStatus, getComposeStatus, hDo, hCode, hRead, hJson, hSuccess, hFailure,
        imageStatusSuccess, imageStatusFailure]
    exact ⟨hOnce, by rw [hOnce]; exact hOnce⟩

theorem getStatus_pending_witness :
    (GetCommitStatus (pollService "pending" none) submittedImage [] =
        { image := submittedImage, outcome := Outcome.returned } ∧
      GetCommitStatus (pollService "pending" none)
          (GetCommitStatus (pollService "pending" none) submittedImage []).image [] =
        { image := submittedImage, outcome := Outcome.returned }) ∧
    (GetInstallerStatus (pollService "pending" none) submittedImage [] =
        { image := submittedImage, outcome := Outcome.returned } ∧
      GetInstallerStatus (pollService "pending" none)
          (GetInstallerStatus (pollService "pending" none) submittedImage []).image [] =
        { image := submittedImage, outcome := Outcome.returned }) :=
  ⟨(getStatus_pending (pollService "pending" none) submittedImage []
      { StatusCode := 200, Body := { data := "image_status", err := none } }
      { ImageStatus := { Status := "pending", UploadStatus := none } }).1
      rfl rfl rfl rfl (by decide) (by decide),
   (getStatus_pending (pollService "pending" none) submittedImage []
      { StatusCode := 200, Body := { data := "image_status", err := none } }
      { ImageStatus := { Status := "pending", UploadStatus := none } }).2
      rfl rfl rfl rfl (by decide) (by decide)⟩

/-- C4: at an HTTP 200 answer with remote status "success" and no upload
result, GetCommitStatus and GetInstallerStatus end in a nil dereference, not
in a returned error, after the two status fields have been written. -/
theorem getStatus_success_without_upload :
    GetCommitStatus (pollService "success" none) submittedImage [] =
      { image :=
          { submittedImage with
            Status := "success", Commit := { submittedImage.Commit with Status := "success" } }
        outcome := Outcome.nilDereference } ∧
    GetInstallerStatus (pollService "success" none) submittedImage [] =
      { image :=
          { submittedImage with
            Status := "success"
            Installer := { submittedImage.Installer with Status := "success" } }
        outcome := Outcome.nilDereference } := by
  decide

end imagebuilder
